import Mathlib

/-!
Shallow embedding of the foss4g raster notebooks.

The repository is a set of Jupyter notebooks that sequence calls into the
rasterio library: open a 4-band satellite image, inspect per-band statistics,
look up a pixel from world coordinates, clip the image to an area-of-interest
polygon with rasterio.mask.mask, and reproject the clipped result to
EPSG:4326 with calculate_default_transform and reproject.

Datasets, affine transforms, metadata and the filesystem are modelled
concretely; the three geospatial computations the notebooks delegate to
rasterio (mask, calculate_default_transform, reproject) are modelled as an
abstract library record, so every theorem about the pipeline holds for any
behaviour of those library routines.  Accessors whose results the notebooks
consume directly (read, read full, index, bounds) are modelled from
rasterio's documented semantics.
-/

/-- Value of one pixel. -/
abbrev Pixel := Int

/-- One raster band: a list of rows of pixel values. -/
abbrev Band := List (List Pixel)

/-- An affine transform: six coefficients (a b c d e f) mapping fractional
pixel coordinates (col, row) to world coordinates
(a*col + b*row + c, d*col + e*row + f). -/
structure Affine where
  a : Rat
  b : Rat
  c : Rat
  d : Rat
  e : Rat
  f : Rat
deriving DecidableEq

/-- Raster metadata as rasterio exposes it through dataset.meta: driver,
dtype, nodata, width, height, count, crs, transform. -/
structure RasterMeta where
  driver : String
  dtype : String
  nodata : Option Rat
  width : Nat
  height : Nat
  count : Nat
  crs : String
  transform : Affine
deriving DecidableEq

/-- An opened raster dataset: its metadata plus its band arrays. -/
structure Dataset where
  meta : RasterMeta
  bands : List Band
deriving DecidableEq

/-- Apply an affine transform to fractional pixel coordinates (col, row),
giving world coordinates (x, y). -/
def Affine.applyT (t : Affine) (col row : Rat) : Rat × Rat :=
  (t.a * col + t.b * row + t.c, t.d * col + t.e * row + t.f)

/-- A bounding box as rasterio's dataset.bounds returns it. -/
structure BoundingBox where
  left : Rat
  bottom : Rat
  right : Rat
  top : Rat
deriving DecidableEq

/-- Models rasterio dataset.bounds: the lower-left corner is the transform
applied to pixel (0, height), the upper-right corner is the transform applied
to pixel (width, 0). -/
def Dataset.bounds (d : Dataset) : BoundingBox :=
  let lb := d.meta.transform.applyT 0 (d.meta.height : Rat)
  let rt := d.meta.transform.applyT (d.meta.width : Rat) 0
  { left := lb.1, bottom := lb.2, right := rt.1, top := rt.2 }

/-- Models rasterio dataset.indexes: the 1-based band indexes 1, ..., count. -/
def Dataset.indexes (d : Dataset) : List Nat := List.range' 1 d.meta.count

/-- Models rasterio dataset.read() with no argument: a 3-D array holding one
2-D array per band, in band-index order. -/
def Dataset.read (d : Dataset) : List Band := d.bands

/-- Models rasterio dataset.read(i) for a 1-based band index i: the i-th band
if the index is valid, otherwise an IndexError (none). -/
def Dataset.read1 (d : Dataset) (i : Nat) : Option Band :=
  if 1 ≤ i ∧ i ≤ d.meta.count then some (d.bands.getD (i - 1) []) else none

/-- Models rasterio dataset.index(x, y, op=math.floor): invert the affine
transform at the world point (x, y) and floor both fractional coordinates.
The result is ordered (row, col), as rasterio documents. -/
def Dataset.index (d : Dataset) (x y : Rat) : Int × Int :=
  let t := d.meta.transform
  let det := t.a * t.e - t.b * t.d
  let colf := (t.e * (x - t.c) - t.b * (y - t.f)) / det
  let rowf := (t.a * (y - t.f) - t.d * (x - t.c)) / det
  (⌊rowf⌋, ⌊colf⌋)

/-- World x coordinate computed by the pixel-lookup cell:
x_coord = satdat.bounds.left - 10000. -/
def lookup_x (d : Dataset) : Rat := d.bounds.left - 10000

/-- World y coordinate computed by the pixel-lookup cell:
y_coord = satdat.bounds.top + 10000. -/
def lookup_y (d : Dataset) : Rat := d.bounds.top + 10000

/-- The pixel-lookup cell unpacks col, row = satdat.index(x, y, op=math.floor);
since index returns (row, col), the cell's col variable is the first
component of the returned pair. -/
def lookup_col (d : Dataset) : Int := (d.index (lookup_x d) (lookup_y d)).1

/-- The pixel-lookup cell's row variable: the second component of the pair
returned by satdat.index. -/
def lookup_row (d : Dataset) : Int := (d.index (lookup_x d) (lookup_y d)).2

/-- Minimum of a list of pixel values, as numpy's ndarray.min computes it on
a non-empty array (0 is an arbitrary default for the empty list, on which
numpy raises instead). -/
def listMin : List Pixel → Pixel
  | [] => 0
  | [x] => x
  | x :: y :: ys => min x (listMin (y :: ys))

/-- Maximum of a list of pixel values, as numpy's ndarray.max computes it on
a non-empty array. -/
def listMax : List Pixel → Pixel
  | [] => 0
  | [x] => x
  | x :: y :: ys => max x (listMax (y :: ys))

/-- Flatten a 2-D band into the list of its pixel values. -/
def flat2 : Band → List Pixel
  | [] => []
  | r :: rs => r ++ flat2 rs

/-- Flatten a 3-D array (a list of bands) into the list of its pixel values. -/
def flat3 : List Band → List Pixel
  | [] => []
  | b :: bs => flat2 b ++ flat3 bs

/-- The per-band minimums printed by the statistics cell: for bidx in
satdat.indexes, satdat.read(bidx).min(). -/
def bandMins (d : Dataset) : List Pixel :=
  d.indexes.map (fun i => listMin (flat2 ((d.read1 i).getD [])))

/-- The per-band maximums printed by the statistics cell: for bidx in
satdat.indexes, satdat.read(bidx).max(). -/
def bandMaxs (d : Dataset) : List Pixel :=
  d.indexes.map (fun i => listMax (flat2 ((d.read1 i).getD [])))

/-- The overall minimum printed by the statistics cell: satdat.read().min(). -/
def overallMin (d : Dataset) : Pixel := listMin (flat3 d.read)

/-- The overall maximum printed by the statistics cell: satdat.read().max(). -/
def overallMax (d : Dataset) : Pixel := listMax (flat3 d.read)

/-- A dataset is well-formed when it stores exactly the advertised number of
bands. -/
def Dataset.wf (d : Dataset) : Prop := d.bands.length = d.meta.count

/-- Errors raised by the underlying libraries and propagated unchanged by the
notebooks. -/
inductive Err where
  | fileNotFound (name : String)
  | libError (msg : String)
deriving DecidableEq

/-- An area-of-interest geometry: a polygon as a list of rings of world
coordinates.  The notebooks treat it as an opaque blob read from GeoJSON. -/
abbrev Geometry := List (List (Rat × Rat))

/-- A vector file as fiona exposes it: a sequence of features, of which the
notebook extracts the geometry of each. -/
structure VectorFile where
  features : List Geometry
deriving DecidableEq

/-- The raster files on disk, by name. -/
abbrev FS := List (String × Dataset)

/-- The vector files on disk, by name. -/
abbrev VFS := List (String × VectorFile)

/-- Models rasterio.open(name) for reading: return the stored dataset, or
raise the library's file-not-found error. -/
def openR (fs : FS) (name : String) : Except Err Dataset :=
  match fs.lookup name with
  | some d => .ok d
  | none => .error (.fileNotFound name)

/-- Models fiona.open(name): return the stored vector file, or raise the
library's file-not-found error. -/
def openV (vfs : VFS) (name : String) : Except Err VectorFile :=
  match vfs.lookup name with
  | some v => .ok v
  | none => .error (.fileNotFound name)

/-- Writing a raster file: the new file shadows any older file of the same
name. -/
def setFile (fs : FS) (name : String) (d : Dataset) : FS := (name, d) :: fs

/-- The geospatial computations the notebooks delegate to rasterio, kept
abstract: mask(img, shapes, crop=True) returning the clipped 3-D array and
the new transform; calculate_default_transform(src_crs, dst_crs, width,
height, *bounds) returning the new transform, width and height;
reproject(source_band, src_transform, src_crs, dst_transform, dst_crs)
returning the resampled destination band; and write(name, meta, bands), the
output-file write — rasterio.open(name, 'w', **meta) plus writing the band
data, modelled as one fallible step — which on success stores the dataset
and may otherwise raise e.g. an unsupported-driver, unsupported-CRS or I/O
error.  Each operation may raise a library error. -/
structure RasterioLib where
  mask : Dataset → List Geometry → Except Err (List Band × Affine)
  calcTransform : String → String → Nat → Nat → BoundingBox → Except Err (Affine × Nat × Nat)
  reproject : Band → Affine → String → Affine → String → Except Err Band
  write : String → RasterMeta → List Band → Except Err Unit

/-- Observable events of a notebook run: handle opens and closes (tagged by
the variable holding the handle and by the file name), plots, the mask call
(carrying the shapes argument it received), file writes, the transform
calculation, and one event per per-band reproject call (source band,
destination band). -/
inductive Ev where
  | openRaster (handle : String) (file : String)
  | openVector (handle : String) (file : String)
  | closeHandle (handle : String)
  | plotShow (handle : String)
  | maskOp (shapes : List Geometry)
  | writeData (file : String)
  | calcT
  | reproj (srcBand dstBand : Nat)
deriving DecidableEq

/-- The target CRS of the reprojection cell. -/
def target_crs : String := "EPSG:4326"

/-- shape[0] of a 3-D array: the number of bands. -/
def shape0 (a : List Band) : Nat := a.length

/-- shape[1] of a 3-D array: the number of rows of the first band. -/
def shape1 (a : List Band) : Nat := (a.headD []).length

/-- shape[2] of a 3-D array: the number of columns of the first row of the
first band. -/
def shape2 (a : List Band) : Nat := ((a.headD []).headD []).length

/-- Metadata written for clipped.tif: a copy of the source's metadata in
which transform, height and width are replaced by the mask call's transform
and the clipped array's shape[1] and shape[2]. -/
def clippedMeta (img : Dataset) (clipped : List Band) (tr : Affine) : RasterMeta :=
  { img.meta with transform := tr, height := shape1 clipped, width := shape2 clipped }

/-- The dataset written to clipped.tif. -/
def clippedDs (img : Dataset) (clipped : List Band) (tr : Affine) : Dataset :=
  { meta := clippedMeta img clipped tr, bands := clipped }

/-- Metadata written for clipped_4326.tif: a copy of the clipped dataset's
metadata in which crs, transform, width and height are replaced by the target
CRS and the results of calculate_default_transform. -/
def reprojMeta (cimg : Dataset) (t2 : Affine) (w2 h2 : Nat) : RasterMeta :=
  { cimg.meta with crs := target_crs, transform := t2, width := w2, height := h2 }

/-- The reprojection loop of the final cell: for band in
range(1, clipped_img.count + 1), call reproject on band i of the source with
the source transform and CRS and the newly computed transform and target CRS,
writing the result into band i of the destination.  Returns the per-band
events and either the destination bands or the first library error. -/
def reprojectLoop (lib : RasterioLib) (src : Dataset) (t2 : Affine) (dstCrs : String) :
    List Nat → List Ev × Except Err (List Band)
  | [] => ([], .ok [])
  | i :: rest =>
    match lib.reproject ((src.read1 i).getD []) src.meta.transform src.meta.crs t2 dstCrs with
    | .error e => ([.reproj i i], .error e)
    | .ok b =>
      let r := reprojectLoop lib src t2 dstCrs rest
      (.reproj i i :: r.1, r.2.map (b :: ·))

/-- The notebook cells from calculate_default_transform onward, given the
filesystem holding clipped.tif and the reopened clipped dataset. -/
def afterClip (lib : RasterioLib) (fs1 : FS) (cimg : Dataset) : List Ev × Except Err FS :=
  match lib.calcTransform cimg.meta.crs target_crs cimg.meta.width cimg.meta.height cimg.bounds with
  | .error e => ([.calcT], .error e)
  | .ok (t2, w2, h2) =>
    let metadata := reprojMeta cimg t2 w2 h2
    match reprojectLoop lib cimg t2 target_crs cimg.indexes with
    | (evs, .error e) =>
      ((([.calcT, .openRaster "reprojected" "clipped_4326.tif"] : List Ev) ++ evs
        ++ [.closeHandle "reprojected"], .error e) : List Ev × Except Err FS)
    | (evs, .ok newBands) =>
      match lib.write "clipped_4326.tif" metadata newBands with
      | .error e =>
        ((([.calcT, .openRaster "reprojected" "clipped_4326.tif"] : List Ev) ++ evs
          ++ [.closeHandle "reprojected"], .error e) : List Ev × Except Err FS)
      | .ok _ =>
        let fs2 := setFile fs1 "clipped_4326.tif" { meta := metadata, bands := newBands }
        let rest : List Ev × Except Err FS :=
          match openR fs2 "clipped_4326.tif" with
          | .error e => ([.openRaster "reproj" "clipped_4326.tif"], .error e)
          | .ok _ => ([.openRaster "reproj" "clipped_4326.tif", .plotShow "reproj"], .ok fs2)
        (([.calcT, .openRaster "reprojected" "clipped_4326.tif"] : List Ev) ++ evs
          ++ [.writeData "clipped_4326.tif", .closeHandle "reprojected"] ++ rest.1, rest.2)

/-- The notebook cells after the mask call: write clipped.tif from a copy of
the source metadata (a fallible library write), reopen it as clipped_img,
then continue with the reprojection cells. -/
def afterMask (lib : RasterioLib) (rfs : FS) (img : Dataset) (clipped : List Band) (tr : Affine) :
    List Ev × Except Err FS :=
  match lib.write "clipped.tif" (clippedMeta img clipped tr) clipped with
  | .error e =>
    (([.openRaster "dst" "clipped.tif", .closeHandle "dst"] : List Ev), .error e)
  | .ok _ =>
    let fs1 := setFile rfs "clipped.tif" (clippedDs img clipped tr)
    let rest : List Ev × Except Err FS :=
      match openR fs1 "clipped.tif" with
      | .error e => ([.openRaster "clipped_img" "clipped.tif"], .error e)
      | .ok cimg =>
        let r := afterClip lib fs1 cimg
        (([.openRaster "clipped_img" "clipped.tif", .plotShow "clipped_img"] : List Ev) ++ r.1,
          r.2)
    (([.openRaster "dst" "clipped.tif", .writeData "clipped.tif", .closeHandle "dst"] : List Ev)
      ++ rest.1, rest.2)

/-- The whole clip-and-reproject notebook, cell by cell: open example.tif as
satdat and plot it; load the AOI geometries from aoi.geojson inside a with
block; reopen example.tif as img inside a with block and call mask with
crop=True; write clipped.tif; reopen it as clipped_img and plot it; call
calculate_default_transform; write clipped_4326.tif while reprojecting each
band; reopen the result as reproj and plot it.  Returns the event trace and
either the final filesystem or the first propagated library error. -/
def runPipeline (lib : RasterioLib) (rfs : FS) (vfs : VFS) : List Ev × Except Err FS :=
  match openR rfs "example.tif" with
  | .error e => ([.openRaster "satdat" "example.tif"], .error e)
  | .ok _satdat =>
    let rest : List Ev × Except Err FS :=
      match openV vfs "aoi.geojson" with
      | .error e => ([.openVector "f" "aoi.geojson"], .error e)
      | .ok f =>
        let aoi := f.features
        let rest2 : List Ev × Except Err FS :=
          match openR rfs "example.tif" with
          | .error e => ([.openRaster "img" "example.tif"], .error e)
          | .ok img =>
            let rest3 : List Ev × Except Err FS :=
              match lib.mask img aoi with
              | .error e => ([.maskOp aoi, .closeHandle "img"], .error e)
              | .ok (clipped, tr) =>
                let r := afterMask lib rfs img clipped tr
                (([.maskOp aoi, .closeHandle "img"] : List Ev) ++ r.1, r.2)
            (([.openRaster "img" "example.tif"] : List Ev) ++ rest3.1, rest3.2)
        (([.openVector "f" "aoi.geojson", .closeHandle "f"] : List Ev) ++ rest2.1, rest2.2)
    (([.openRaster "satdat" "example.tif", .plotShow "satdat"] : List Ev) ++ rest.1, rest.2)

/-- The event trace of a fully successful run, for a mask shapes argument and
a source band count. -/
def successTrace (shapes : List Geometry) (count : Nat) : List Ev :=
  ([.openRaster "satdat" "example.tif", .plotShow "satdat",
   .openVector "f" "aoi.geojson", .closeHandle "f",
   .openRaster "img" "example.tif", .maskOp shapes, .closeHandle "img",
   .openRaster "dst" "clipped.tif", .writeData "clipped.tif", .closeHandle "dst",
   .openRaster "clipped_img" "clipped.tif", .plotShow "clipped_img",
   .calcT, .openRaster "reprojected" "clipped_4326.tif"] : List Ev)
  ++ (List.range' 1 count).map (fun i => Ev.reproj i i)
  ++ [.writeData "clipped_4326.tif", .closeHandle "reprojected",
      .openRaster "reproj" "clipped_4326.tif", .plotShow "reproj"]

/-- The filesystem after a fully successful run: the original files plus
clipped.tif and clipped_4326.tif, where g i is the band returned by the
reproject call for band i. -/
def finalFS (rfs : FS) (img : Dataset) (clipped : List Band) (tr t2 : Affine)
    (w2 h2 : Nat) (g : Nat → Band) : FS :=
  let cds := clippedDs img clipped tr
  setFile (setFile rfs "clipped.tif" cds) "clipped_4326.tif"
    { meta := reprojMeta cds t2 w2 h2, bands := cds.indexes.map g }

/-- A concrete two-band example scene (UTM zone 10N, 3 m pixels). -/
def exDataset : Dataset :=
  { meta := { driver := "GTiff", dtype := "uint16", nodata := some 0, width := 2, height := 2,
              count := 2, crs := "EPSG:32610", transform := ⟨3, 0, 500000, 0, -3, 4000000⟩ },
    bands := [[[10, 20], [30, 40]], [[5, 60], [7, 8]]] }

/-- A concrete raster filesystem holding only example.tif. -/
def exFS : FS := [("example.tif", exDataset)]

/-- A concrete AOI polygon. -/
def exAoi : Geometry := [[(500001, 3999999), (500004, 3999999), (500004, 3999996)]]

/-- A concrete AOI vector file with one feature. -/
def exVec : VectorFile := { features := [exAoi] }

/-- A second AOI vector file whose single feature is the same polygon. -/
def exVec2 : VectorFile := { features := [exAoi] }

/-- A concrete vector filesystem holding only aoi.geojson. -/
def exVFS : VFS := [("aoi.geojson", exVec)]

/-- The clipped 3-D array the concrete library returns: 2 bands, 1 row,
2 columns. -/
def exClipped : List Band := [[[1, 2]], [[3, 4]]]

/-- The transform the concrete mask call returns. -/
def exTr : Affine := ⟨3, 0, 500001, 0, -3, 3999999⟩

/-- The transform the concrete calculate_default_transform call returns. -/
def exT2 : Affine := ⟨1/30000, 0, -121, 0, -1/30000, 37⟩

/-- A concrete, always-succeeding library: mask returns exClipped and exTr,
calculate_default_transform bumps both dimensions by one, reproject returns
its source band unchanged. -/
def exLib : RasterioLib :=
  { mask := fun _ _ => .ok (exClipped, exTr),
    calcTransform := fun _ _ w h _ => .ok (exT2, w + 1, h + 1),
    reproject := fun b _ _ _ _ => .ok b,
    write := fun _ _ _ => .ok () }

/-- The per-band reproject results of exLib on the clipped dataset. -/
def exG : Nat → Band :=
  fun i => ((clippedDs exDataset exClipped exTr).read1 i).getD []

/-- A library whose mask call raises an invalid-geometry error. -/
def badGeomLib : RasterioLib :=
  { exLib with mask := fun _ _ => .error (.libError "invalid geometry") }

/-- A library whose calculate_default_transform call raises an
unsupported-CRS error. -/
def badCrsLib : RasterioLib :=
  { exLib with calcTransform := fun _ _ _ _ _ => .error (.libError "unsupported crs") }

/-- A library whose reproject call raises an error. -/
def badReprojLib : RasterioLib :=
  { exLib with reproject := fun _ _ _ _ _ => .error (.libError "reproject failed") }

/-- A library whose output-file write raises an error. -/
def badWriteLib : RasterioLib :=
  { exLib with write := fun _ _ _ => .error (.libError "write failed") }

/-- A concrete 4-band PlanetScope-like scene, 5000 x 5000 pixels of 3 m in
UTM zone 10N: upper-left corner at (500000, 4000000), north-up transform. -/
def planetDs : Dataset :=
  { meta := { driver := "GTiff", dtype := "uint16", nodata := some 0, width := 5000,
              height := 5000, count := 4, crs := "EPSG:32610",
              transform := ⟨3, 0, 500000, 0, -3, 4000000⟩ },
    bands := [[[1]], [[2]], [[3]], [[4]]] }

/-- A concrete 4-band demo scene with 2 x 2 bands, for the band-reading
notebook. -/
def satDemo : Dataset :=
  { meta := { driver := "GTiff", dtype := "uint16", nodata := some 0, width := 2, height := 2,
              count := 4, crs := "EPSG:32610", transform := ⟨3, 0, 500000, 0, -3, 4000000⟩ },
    bands := [[[1, 2], [3, 4]], [[5, 6], [7, 8]], [[9, 1], [2, 3]], [[4, 5], [6, 7]]] }

/-- The core pipeline operations of the spec's arrow diagram: the mask
computation, the output-file writes, the transform calculation and the
per-band reproject calls. -/
def isCoreOp : Ev → Bool
  | .maskOp _ => true
  | .writeData _ => true
  | .calcT => true
  | .reproj _ _ => true
  | _ => false

/-- The handles a trace opens, in order. -/
def opensOf (tr : List Ev) : List String :=
  tr.filterMap fun e =>
    match e with
    | .openRaster h _ => some h
    | .openVector h _ => some h
    | _ => none

/-- The handles a trace closes, in order. -/
def closesOf (tr : List Ev) : List String :=
  tr.filterMap fun e =>
    match e with
    | .closeHandle h => some h
    | _ => none

/-- Recognize a mask event. -/
def isMaskEv : Ev → Bool
  | .maskOp _ => true
  | _ => false

/-- Recognize a vector-file open event. -/
def isOpenVectorEv : Ev → Bool
  | .openVector _ _ => true
  | _ => false

/-- Recognize a per-band reproject event. -/
def isReprojEv : Ev → Bool
  | .reproj _ _ => true
  | _ => false

instance {ε α : Type _} [DecidableEq ε] [DecidableEq α] : DecidableEq (Except ε α)
  | .error e, .error e' =>
    if h : e = e' then .isTrue (by rw [h]) else .isFalse (by simp [h])
  | .error _, .ok _ => .isFalse (by simp)
  | .ok _, .error _ => .isFalse (by simp)
  | .ok a, .ok a' =>
    if h : a = a' then .isTrue (by rw [h]) else .isFalse (by simp [h])

theorem listMin_cons (x : Pixel) (ys : List Pixel) (h : ys ≠ []) :
    listMin (x :: ys) = min x (listMin ys) := by
  cases ys with
  | nil => exact absurd rfl h
  | cons y ys => rfl

theorem listMax_cons (x : Pixel) (ys : List Pixel) (h : ys ≠ []) :
    listMax (x :: ys) = max x (listMax ys) := by
  cases ys with
  | nil => exact absurd rfl h
  | cons y ys => rfl

theorem listMin_append (a b : List Pixel) (ha : a ≠ []) (hb : b ≠ []) :
    listMin (a ++ b) = min (listMin a) (listMin b) := by
  induction a with
  | nil => exact absurd rfl ha
  | cons x xs ih =>
    cases xs with
    | nil => simp [listMin_cons x b hb, listMin]
    | cons y ys =>
      have hxs : (y :: ys : List Pixel) ≠ [] := by simp
      have hab : (y :: ys ++ b : List Pixel) ≠ [] := by simp
      rw [List.cons_append, listMin_cons x (y :: ys ++ b) hab,
        ih hxs, listMin_cons x (y :: ys) hxs, min_assoc]

theorem listMax_append (a b : List Pixel) (ha : a ≠ []) (hb : b ≠ []) :
    listMax (a ++ b) = max (listMax a) (listMax b) := by
  induction a with
  | nil => exact absurd rfl ha
  | cons x xs ih =>
    cases xs with
    | nil => simp [listMax_cons x b hb, listMax]
    | cons y ys =>
      have hxs : (y :: ys : List Pixel) ≠ [] := by simp
      have hab : (y :: ys ++ b : List Pixel) ≠ [] := by simp
      rw [List.cons_append, listMax_cons x (y :: ys ++ b) hab,
        ih hxs, listMax_cons x (y :: ys) hxs, max_assoc]

theorem flat3_ne_nil (l : List Band) (hne : l ≠ []) (hb : ∀ b ∈ l, flat2 b ≠ []) :
    flat3 l ≠ [] := by
  cases l with
  | nil => exact absurd rfl hne
  | cons b bs =>
    have : flat2 b ≠ [] := hb b (by simp)
    simp only [flat3]
    intro h
    exact this (List.append_eq_nil.mp h).1

theorem listMin_flat3 (l : List Band) (hne : l ≠ []) (hb : ∀ b ∈ l, flat2 b ≠ []) :
    listMin (flat3 l) = listMin (l.map fun b => listMin (flat2 b)) := by
  induction l with
  | nil => exact absurd rfl hne
  | cons b bs ih =>
    cases bs with
    | nil =>
      rw [show flat3 [b] = flat2 b ++ [] from rfl, List.append_nil]
      rfl
    | cons b2 bs2 =>
      have hbs : (b2 :: bs2 : List Band) ≠ [] := by simp
      have hb2 : ∀ x ∈ b2 :: bs2, flat2 x ≠ [] := fun x hx => hb x (by simp [hx])
      have hflat : flat3 (b2 :: bs2) ≠ [] := flat3_ne_nil _ hbs hb2
      have hfb : flat2 b ≠ [] := hb b (by simp)
      have hne2 : List.map (fun x => listMin (flat2 x)) (b2 :: bs2) ≠ [] := by simp
      rw [show flat3 (b :: b2 :: bs2) = flat2 b ++ flat3 (b2 :: bs2) from rfl,
        listMin_append _ _ hfb hflat, ih hbs hb2,
        show (b :: b2 :: bs2).map (fun x => listMin (flat2 x))
          = listMin (flat2 b) :: (b2 :: bs2).map (fun x => listMin (flat2 x)) from rfl,
        listMin_cons _ _ hne2]

theorem listMax_flat3 (l : List Band) (hne : l ≠ []) (hb : ∀ b ∈ l, flat2 b ≠ []) :
    listMax (flat3 l) = listMax (l.map fun b => listMax (flat2 b)) := by
  induction l with
  | nil => exact absurd rfl hne
  | cons b bs ih =>
    cases bs with
    | nil =>
      rw [show flat3 [b] = flat2 b ++ [] from rfl, List.append_nil]
      rfl
    | cons b2 bs2 =>
      have hbs : (b2 :: bs2 : List Band) ≠ [] := by simp
      have hb2 : ∀ x ∈ b2 :: bs2, flat2 x ≠ [] := fun x hx => hb x (by simp [hx])
      have hflat : flat3 (b2 :: bs2) ≠ [] := flat3_ne_nil _ hbs hb2
      have hfb : flat2 b ≠ [] := hb b (by simp)
      have hne2 : List.map (fun x => listMax (flat2 x)) (b2 :: bs2) ≠ [] := by simp
      rw [show flat3 (b :: b2 :: bs2) = flat2 b ++ flat3 (b2 :: bs2) from rfl,
        listMax_append _ _ hfb hflat, ih hbs hb2,
        show (b :: b2 :: bs2).map (fun x => listMax (flat2 x))
          = listMax (flat2 b) :: (b2 :: bs2).map (fun x => listMax (flat2 x)) from rfl,
        listMax_cons _ _ hne2]

theorem bandMins_eq_map (d : Dataset) (hwf : d.wf) :
    bandMins d = d.read.map (fun b => listMin (flat2 b)) := by
  unfold bandMins Dataset.indexes Dataset.read
  apply List.ext_getElem
  · simpa using hwf.symm
  · intro n h1 h2
    simp only [List.getElem_map, List.getElem_range']
    have hn : n < d.meta.count := by simpa using h1
    have hcond : 1 ≤ 1 + 1 * n ∧ 1 + 1 * n ≤ d.meta.count := ⟨by omega, by omega⟩
    rw [Dataset.read1, if_pos hcond]
    have hidx : 1 + 1 * n - 1 = n := by omega
    have hn2 : n < d.bands.length := by rw [hwf]; omega
    rw [Option.getD_some, hidx, List.getD_eq_getElem _ _ hn2]

theorem bandMaxs_eq_map (d : Dataset) (hwf : d.wf) :
    bandMaxs d = d.read.map (fun b => listMax (flat2 b)) := by
  unfold bandMaxs Dataset.indexes Dataset.read
  apply List.ext_getElem
  · simpa using hwf.symm
  · intro n h1 h2
    simp only [List.getElem_map, List.getElem_range']
    have hn : n < d.meta.count := by simpa using h1
    have hcond : 1 ≤ 1 + 1 * n ∧ 1 + 1 * n ≤ d.meta.count := ⟨by omega, by omega⟩
    rw [Dataset.read1, if_pos hcond]
    have hidx : 1 + 1 * n - 1 = n := by omega
    have hn2 : n < d.bands.length := by rw [hwf]; omega
    rw [Option.getD_some, hidx, List.getD_eq_getElem _ _ hn2]

theorem reprojectLoop_ok (lib : RasterioLib) (src : Dataset) (t2 : Affine) (dstCrs : String)
    (g : Nat → Band) (l : List Nat)
    (h : ∀ i ∈ l, lib.reproject ((src.read1 i).getD []) src.meta.transform src.meta.crs
      t2 dstCrs = .ok (g i)) :
    reprojectLoop lib src t2 dstCrs l = (l.map (fun i => .reproj i i), .ok (l.map g)) := by
  induction l with
  | nil => rfl
  | cons i rest ih =>
    have hi := h i (by simp)
    have hrest : ∀ j ∈ rest, lib.reproject ((src.read1 j).getD []) src.meta.transform
        src.meta.crs t2 dstCrs = .ok (g j) := fun j hj => h j (by simp [hj])
    simp [reprojectLoop, hi, ih hrest, Except.map]

theorem openR_setFile (fs : FS) (name : String) (d : Dataset) :
    openR (setFile fs name d) name = .ok d := by
  simp [openR, setFile, List.lookup]

theorem run_spec (lib : RasterioLib) (rfs : FS) (vfs : VFS) (sat : Dataset) (f : VectorFile)
    (clipped : List Band) (tr t2 : Affine) (w2 h2 : Nat) (g : Nat → Band)
    (ho : openR rfs "example.tif" = .ok sat)
    (hv : openV vfs "aoi.geojson" = .ok f)
    (hm : lib.mask sat f.features = .ok (clipped, tr))
    (hw1 : lib.write "clipped.tif" (clippedMeta sat clipped tr) clipped = .ok ())
    (hc : lib.calcTransform (clippedDs sat clipped tr).meta.crs target_crs
        (clippedDs sat clipped tr).meta.width (clippedDs sat clipped tr).meta.height
        (clippedDs sat clipped tr).bounds = .ok (t2, w2, h2))
    (hr : ∀ i ∈ (clippedDs sat clipped tr).indexes,
        lib.reproject (((clippedDs sat clipped tr).read1 i).getD [])
          (clippedDs sat clipped tr).meta.transform (clippedDs sat clipped tr).meta.crs
          t2 target_crs = .ok (g i))
    (hw2 : lib.write "clipped_4326.tif" (reprojMeta (clippedDs sat clipped tr) t2 w2 h2)
        ((clippedDs sat clipped tr).indexes.map g) = .ok ()) :
    runPipeline lib rfs vfs =
      (successTrace f.features sat.meta.count,
        .ok (finalFS rfs sat clipped tr t2 w2 h2 g)) := by
  have hloop := reprojectLoop_ok lib (clippedDs sat clipped tr) t2 target_crs g
    (clippedDs sat clipped tr).indexes hr
  simp only [runPipeline, afterMask, afterClip, ho, hv, hm, hw1, openR_setFile, hc, hloop,
    hw2]
  simp [successTrace, finalFS, clippedDs, clippedMeta, Dataset.indexes]

theorem finalFS_lookup_clipped (rfs : FS) (sat : Dataset) (clipped : List Band)
    (tr t2 : Affine) (w2 h2 : Nat) (g : Nat → Band) :
    (finalFS rfs sat clipped tr t2 w2 h2 g).lookup "clipped.tif"
      = some (clippedDs sat clipped tr) := by
  simp [finalFS, setFile, List.lookup]

theorem finalFS_lookup_reproj (rfs : FS) (sat : Dataset) (clipped : List Band)
    (tr t2 : Affine) (w2 h2 : Nat) (g : Nat → Band) :
    (finalFS rfs sat clipped tr t2 w2 h2 g).lookup "clipped_4326.tif"
      = some { meta := reprojMeta (clippedDs sat clipped tr) t2 w2 h2,
               bands := (clippedDs sat clipped tr).indexes.map g } := by
  simp [finalFS, setFile, List.lookup]

/-- C1: each output file's dimensions and transform match what the library
computation returned, and the transform is recomputed at each cropping or
reprojecting step: clipped.tif is written with height clipped.shape[1],
width clipped.shape[2] and the transform returned by the mask call;
clipped_4326.tif is written with the width, height and transform returned by
calculate_default_transform, not the source dataset's original transform. -/
theorem c1_output_dims_and_transforms (lib : RasterioLib) (rfs : FS) (vfs : VFS)
    (sat : Dataset) (f : VectorFile) (clipped : List Band) (tr t2 : Affine) (w2 h2 : Nat)
    (g : Nat → Band)
    (ho : openR rfs "example.tif" = .ok sat)
    (hv : openV vfs "aoi.geojson" = .ok f)
    (hm : lib.mask sat f.features = .ok (clipped, tr))
    (hw1 : lib.write "clipped.tif" (clippedMeta sat clipped tr) clipped = .ok ())
    (hc : lib.calcTransform (clippedDs sat clipped tr).meta.crs target_crs
        (clippedDs sat clipped tr).meta.width (clippedDs sat clipped tr).meta.height
        (clippedDs sat clipped tr).bounds = .ok (t2, w2, h2))
    (hr : ∀ i ∈ (clippedDs sat clipped tr).indexes,
        lib.reproject (((clippedDs sat clipped tr).read1 i).getD [])
          (clippedDs sat clipped tr).meta.transform (clippedDs sat clipped tr).meta.crs
          t2 target_crs = .ok (g i))
    (hw2 : lib.write "clipped_4326.tif" (reprojMeta (clippedDs sat clipped tr) t2 w2 h2)
        ((clippedDs sat clipped tr).indexes.map g) = .ok ()) :
    ∃ fs, (runPipeline lib rfs vfs).2 = .ok fs ∧
      (∃ d1, fs.lookup "clipped.tif" = some d1 ∧
        d1.meta.height = shape1 clipped ∧ d1.meta.width = shape2 clipped ∧
        d1.meta.transform = tr) ∧
      (∃ d2, fs.lookup "clipped_4326.tif" = some d2 ∧
        d2.meta.width = w2 ∧ d2.meta.height = h2 ∧ d2.meta.transform = t2) := by
  refine ⟨finalFS rfs sat clipped tr t2 w2 h2 g, ?_, ?_, ?_⟩
  · rw [run_spec lib rfs vfs sat f clipped tr t2 w2 h2 g ho hv hm hw1 hc hr hw2]
  · exact ⟨clippedDs sat clipped tr, finalFS_lookup_clipped rfs sat clipped tr t2 w2 h2 g,
      rfl, rfl, rfl⟩
  · exact ⟨_, finalFS_lookup_reproj rfs sat clipped tr t2 w2 h2 g, rfl, rfl, rfl⟩

/-- Witness for C1 at the concrete example scene and library. -/
theorem c1_output_dims_and_transforms_witness :
    ∃ fs, (runPipeline exLib exFS exVFS).2 = .ok fs ∧
      (∃ d1, fs.lookup "clipped.tif" = some d1 ∧
        d1.meta.height = shape1 exClipped ∧ d1.meta.width = shape2 exClipped ∧
        d1.meta.transform = exTr) ∧
      (∃ d2, fs.lookup "clipped_4326.tif" = some d2 ∧
        d2.meta.width = 3 ∧ d2.meta.height = 2 ∧ d2.meta.transform = exT2) :=
  c1_output_dims_and_transforms exLib exFS exVFS exDataset exVec exClipped exTr exT2 3 2 exG
    rfl rfl rfl rfl rfl (fun _ _ => rfl) rfl

theorem filter_core_reproj (l : List Nat) :
    (l.map (fun i => Ev.reproj i i)).filter isCoreOp = l.map (fun i => Ev.reproj i i) := by
  induction l with
  | nil => rfl
  | cons i r ih => simp [isCoreOp, ih]

theorem filter_mask_reproj (l : List Nat) :
    (l.map (fun i => Ev.reproj i i)).filter isMaskEv = [] := by
  induction l with
  | nil => rfl
  | cons i r ih => simp [isMaskEv, ih]

theorem filter_reproj_reproj (l : List Nat) :
    (l.map (fun i => Ev.reproj i i)).filter isReprojEv = l.map (fun i => Ev.reproj i i) := by
  induction l with
  | nil => rfl
  | cons i r ih => simp [isReprojEv, ih]

theorem countP_openV_reproj (l : List Nat) :
    (l.map (fun i => Ev.reproj i i)).countP isOpenVectorEv = 0 := by
  induction l with
  | nil => rfl
  | cons i r ih => simp [isOpenVectorEv, List.countP_cons, ih]

theorem opensOf_reproj (l : List Nat) :
    opensOf (l.map (fun i => Ev.reproj i i)) = [] := by
  induction l with
  | nil => rfl
  | cons i r ih => simp [opensOf, ih]

theorem closesOf_reproj (l : List Nat) :
    closesOf (l.map (fun i => Ev.reproj i i)) = [] := by
  induction l with
  | nil => rfl
  | cons i r ih => simp [closesOf, ih]

/-- C2: the clip-and-reproject pipeline executes as a linear sequence with no
branching, retry or partial-failure logic, in exactly the order: open the
raster file, compute the mask, write the clipped output, compute the new
transform and dimensions for the target CRS, reproject (once per band), and
write the reprojected output.  The trace starts by opening the raster file,
and the core operations of the trace are exactly that sequence, whose shape
depends only on the band count. -/
theorem c2_linear_pipeline_order (lib : RasterioLib) (rfs : FS) (vfs : VFS)
    (sat : Dataset) (f : VectorFile) (clipped : List Band) (tr t2 : Affine) (w2 h2 : Nat)
    (g : Nat → Band)
    (ho : openR rfs "example.tif" = .ok sat)
    (hv : openV vfs "aoi.geojson" = .ok f)
    (hm : lib.mask sat f.features = .ok (clipped, tr))
    (hw1 : lib.write "clipped.tif" (clippedMeta sat clipped tr) clipped = .ok ())
    (hc : lib.calcTransform (clippedDs sat clipped tr).meta.crs target_crs
        (clippedDs sat clipped tr).meta.width (clippedDs sat clipped tr).meta.height
        (clippedDs sat clipped tr).bounds = .ok (t2, w2, h2))
    (hr : ∀ i ∈ (clippedDs sat clipped tr).indexes,
        lib.reproject (((clippedDs sat clipped tr).read1 i).getD [])
          (clippedDs sat clipped tr).meta.transform (clippedDs sat clipped tr).meta.crs
          t2 target_crs = .ok (g i))
    (hw2 : lib.write "clipped_4326.tif" (reprojMeta (clippedDs sat clipped tr) t2 w2 h2)
        ((clippedDs sat clipped tr).indexes.map g) = .ok ()) :
    (runPipeline lib rfs vfs).1.head? = some (.openRaster "satdat" "example.tif") ∧
    (runPipeline lib rfs vfs).1.filter isCoreOp
      = [.maskOp f.features, .writeData "clipped.tif", .calcT]
        ++ (List.range' 1 sat.meta.count).map (fun i => .reproj i i)
        ++ [.writeData "clipped_4326.tif"] := by
  rw [run_spec lib rfs vfs sat f clipped tr t2 w2 h2 g ho hv hm hw1 hc hr hw2]
  refine ⟨rfl, ?_⟩
  simp [successTrace, isCoreOp, List.filter_append, filter_core_reproj]

/-- Witness for C2 at the concrete example scene and library. -/
theorem c2_linear_pipeline_order_witness :
    (runPipeline exLib exFS exVFS).1.head? = some (.openRaster "satdat" "example.tif") ∧
    (runPipeline exLib exFS exVFS).1.filter isCoreOp
      = [.maskOp exVec.features, .writeData "clipped.tif", .calcT]
        ++ (List.range' 1 exDataset.meta.count).map (fun i => .reproj i i)
        ++ [.writeData "clipped_4326.tif"] :=
  c2_linear_pipeline_order exLib exFS exVFS exDataset exVec exClipped exTr exT2 3 2 exG
    rfl rfl rfl rfl rfl (fun _ _ => rfl) rfl

/-- C3: each output file keeps its input's container format (driver), and its
metadata is a copy of the input's metadata with only the listed fields
updated: clipped.tif changes only transform, height and width relative to
example.tif; clipped_4326.tif changes only crs, transform, width and height
relative to clipped.tif; driver, band count, dtype and nodata are unchanged,
and clipped.tif also keeps the source crs. -/
theorem c3_metadata_copy_update (lib : RasterioLib) (rfs : FS) (vfs : VFS)
    (sat : Dataset) (f : VectorFile) (clipped : List Band) (tr t2 : Affine) (w2 h2 : Nat)
    (g : Nat → Band)
    (ho : openR rfs "example.tif" = .ok sat)
    (hv : openV vfs "aoi.geojson" = .ok f)
    (hm : lib.mask sat f.features = .ok (clipped, tr))
    (hw1 : lib.write "clipped.tif" (clippedMeta sat clipped tr) clipped = .ok ())
    (hc : lib.calcTransform (clippedDs sat clipped tr).meta.crs target_crs
        (clippedDs sat clipped tr).meta.width (clippedDs sat clipped tr).meta.height
        (clippedDs sat clipped tr).bounds = .ok (t2, w2, h2))
    (hr : ∀ i ∈ (clippedDs sat clipped tr).indexes,
        lib.reproject (((clippedDs sat clipped tr).read1 i).getD [])
          (clippedDs sat clipped tr).meta.transform (clippedDs sat clipped tr).meta.crs
          t2 target_crs = .ok (g i))
    (hw2 : lib.write "clipped_4326.tif" (reprojMeta (clippedDs sat clipped tr) t2 w2 h2)
        ((clippedDs sat clipped tr).indexes.map g) = .ok ()) :
    ∃ fs d1 d2, (runPipeline lib rfs vfs).2 = .ok fs ∧
      fs.lookup "clipped.tif" = some d1 ∧ fs.lookup "clipped_4326.tif" = some d2 ∧
      d1.meta = { sat.meta with
        transform := tr, height := shape1 clipped, width := shape2 clipped } ∧
      d1.meta.driver = sat.meta.driver ∧ d1.meta.count = sat.meta.count ∧
      d1.meta.dtype = sat.meta.dtype ∧ d1.meta.nodata = sat.meta.nodata ∧
      d1.meta.crs = sat.meta.crs ∧
      d2.meta = { d1.meta with
        crs := target_crs, transform := t2, width := w2, height := h2 } ∧
      d2.meta.driver = d1.meta.driver ∧ d2.meta.count = d1.meta.count ∧
      d2.meta.dtype = d1.meta.dtype ∧ d2.meta.nodata = d1.meta.nodata := by
  refine ⟨finalFS rfs sat clipped tr t2 w2 h2 g, clippedDs sat clipped tr, _, ?_,
    finalFS_lookup_clipped rfs sat clipped tr t2 w2 h2 g,
    finalFS_lookup_reproj rfs sat clipped tr t2 w2 h2 g,
    rfl, rfl, rfl, rfl, rfl, rfl, rfl, rfl, rfl, rfl, rfl⟩
  rw [run_spec lib rfs vfs sat f clipped tr t2 w2 h2 g ho hv hm hw1 hc hr hw2]

/-- Witness for C3 at the concrete example scene and library. -/
theorem c3_metadata_copy_update_witness :
    ∃ fs d1 d2, (runPipeline exLib exFS exVFS).2 = .ok fs ∧
      fs.lookup "clipped.tif" = some d1 ∧ fs.lookup "clipped_4326.tif" = some d2 ∧
      d1.meta = { exDataset.meta with
        transform := exTr, height := shape1 exClipped, width := shape2 exClipped } ∧
      d1.meta.driver = exDataset.meta.driver ∧ d1.meta.count = exDataset.meta.count ∧
      d1.meta.dtype = exDataset.meta.dtype ∧ d1.meta.nodata = exDataset.meta.nodata ∧
      d1.meta.crs = exDataset.meta.crs ∧
      d2.meta = { d1.meta with
        crs := target_crs, transform := exT2, width := 3, height := 2 } ∧
      d2.meta.driver = d1.meta.driver ∧ d2.meta.count = d1.meta.count ∧
      d2.meta.dtype = d1.meta.dtype ∧ d2.meta.nodata = d1.meta.nodata :=
  c3_metadata_copy_update exLib exFS exVFS exDataset exVec exClipped exTr exT2 3 2 exG
    rfl rfl rfl rfl rfl (fun _ _ => rfl) rfl

/-- C7: the reprojection step resamples every band: for each band index i
from 1 to the source band count, band i of the clipped source is resampled
into band i of the destination (one reproject event per band, source band i
to destination band i), and the written output has one band per source band,
namely the result g i of the corresponding reproject call made with the
newly computed transform and the target CRS. -/
theorem c7_reproject_per_band (lib : RasterioLib) (rfs : FS) (vfs : VFS)
    (sat : Dataset) (f : VectorFile) (clipped : List Band) (tr t2 : Affine) (w2 h2 : Nat)
    (g : Nat → Band)
    (ho : openR rfs "example.tif" = .ok sat)
    (hv : openV vfs "aoi.geojson" = .ok f)
    (hm : lib.mask sat f.features = .ok (clipped, tr))
    (hw1 : lib.write "clipped.tif" (clippedMeta sat clipped tr) clipped = .ok ())
    (hc : lib.calcTransform (clippedDs sat clipped tr).meta.crs target_crs
        (clippedDs sat clipped tr).meta.width (clippedDs sat clipped tr).meta.height
        (clippedDs sat clipped tr).bounds = .ok (t2, w2, h2))
    (hr : ∀ i ∈ (clippedDs sat clipped tr).indexes,
        lib.reproject (((clippedDs sat clipped tr).read1 i).getD [])
          (clippedDs sat clipped tr).meta.transform (clippedDs sat clipped tr).meta.crs
          t2 target_crs = .ok (g i))
    (hw2 : lib.write "clipped_4326.tif" (reprojMeta (clippedDs sat clipped tr) t2 w2 h2)
        ((clippedDs sat clipped tr).indexes.map g) = .ok ()) :
    ∃ fs d2, (runPipeline lib rfs vfs).2 = .ok fs ∧
      fs.lookup "clipped_4326.tif" = some d2 ∧
      d2.bands = (List.range' 1 sat.meta.count).map g ∧
      d2.bands.length = sat.meta.count ∧
      (runPipeline lib rfs vfs).1.filter isReprojEv
        = (List.range' 1 sat.meta.count).map (fun i => .reproj i i) := by
  refine ⟨finalFS rfs sat clipped tr t2 w2 h2 g, _, ?_,
    finalFS_lookup_reproj rfs sat clipped tr t2 w2 h2 g, rfl,
    by simp [Dataset.indexes, clippedDs, clippedMeta], ?_⟩
  · rw [run_spec lib rfs vfs sat f clipped tr t2 w2 h2 g ho hv hm hw1 hc hr hw2]
  · rw [run_spec lib rfs vfs sat f clipped tr t2 w2 h2 g ho hv hm hw1 hc hr hw2]
    simp [successTrace, isReprojEv, List.filter_append, filter_reproj_reproj]

/-- Witness for C7 at the concrete example scene and library. -/
theorem c7_reproject_per_band_witness :
    ∃ fs d2, (runPipeline exLib exFS exVFS).2 = .ok fs ∧
      fs.lookup "clipped_4326.tif" = some d2 ∧
      d2.bands = (List.range' 1 exDataset.meta.count).map exG ∧
      d2.bands.length = exDataset.meta.count ∧
      (runPipeline exLib exFS exVFS).1.filter isReprojEv
        = (List.range' 1 exDataset.meta.count).map (fun i => .reproj i i) :=
  c7_reproject_per_band exLib exFS exVFS exDataset exVec exClipped exTr exT2 3 2 exG
    rfl rfl rfl rfl rfl (fun _ _ => rfl) rfl

/-- C4 counterexample: in a concrete successful run of the notebook, the
satdat and clipped_img handles are opened but never closed — clipped_img
stays open past the transform calculation and reprojection it serves, to the
end of the script — refuting the claim that every dataset handle is a scoped
resource closed after the operation that uses it. -/
theorem c4_scoped_handles_counterexample :
    "clipped_img" ∈ opensOf (runPipeline exLib exFS exVFS).1 ∧
    "clipped_img" ∉ closesOf (runPipeline exLib exFS exVFS).1 ∧
    "satdat" ∈ opensOf (runPipeline exLib exFS exVFS).1 ∧
    "satdat" ∉ closesOf (runPipeline exLib exFS exVFS).1 := by
  decide

/-- C4 amended: exactly the handles opened by a with statement (the AOI
vector file f, the mask input img, and the two write destinations dst and
reprojected) are closed; the handles satdat, clipped_img and reproj are
opened without a with block and are never closed, remaining open to the end
of the run. -/
theorem c4_with_handles_scoped (lib : RasterioLib) (rfs : FS) (vfs : VFS)
    (sat : Dataset) (f : VectorFile) (clipped : List Band) (tr t2 : Affine) (w2 h2 : Nat)
    (g : Nat → Band)
    (ho : openR rfs "example.tif" = .ok sat)
    (hv : openV vfs "aoi.geojson" = .ok f)
    (hm : lib.mask sat f.features = .ok (clipped, tr))
    (hw1 : lib.write "clipped.tif" (clippedMeta sat clipped tr) clipped = .ok ())
    (hc : lib.calcTransform (clippedDs sat clipped tr).meta.crs target_crs
        (clippedDs sat clipped tr).meta.width (clippedDs sat clipped tr).meta.height
        (clippedDs sat clipped tr).bounds = .ok (t2, w2, h2))
    (hr : ∀ i ∈ (clippedDs sat clipped tr).indexes,
        lib.reproject (((clippedDs sat clipped tr).read1 i).getD [])
          (clippedDs sat clipped tr).meta.transform (clippedDs sat clipped tr).meta.crs
          t2 target_crs = .ok (g i))
    (hw2 : lib.write "clipped_4326.tif" (reprojMeta (clippedDs sat clipped tr) t2 w2 h2)
        ((clippedDs sat clipped tr).indexes.map g) = .ok ()) :
    opensOf (runPipeline lib rfs vfs).1
      = ["satdat", "f", "img", "dst", "clipped_img", "reprojected", "reproj"] ∧
    closesOf (runPipeline lib rfs vfs).1 = ["f", "img", "dst", "reprojected"] := by
  rw [run_spec lib rfs vfs sat f clipped tr t2 w2 h2 g ho hv hm hw1 hc hr hw2]
  constructor
  · simp [successTrace, opensOf, opensOf_reproj]
  · simp [successTrace, closesOf, closesOf_reproj]

/-- Witness for the amended C4 at the concrete example scene and library. -/
theorem c4_with_handles_scoped_witness :
    opensOf (runPipeline exLib exFS exVFS).1
      = ["satdat", "f", "img", "dst", "clipped_img", "reprojected", "reproj"] ∧
    closesOf (runPipeline exLib exFS exVFS).1 = ["f", "img", "dst", "reprojected"] :=
  c4_with_handles_scoped exLib exFS exVFS exDataset exVec exClipped exTr exT2 3 2 exG
    rfl rfl rfl rfl rfl (fun _ _ => rfl) rfl

/-- C5: for every operation of the pipeline, a library error is propagated
unchanged: if opening the raster fails, or opening the vector file fails, or
mask fails, or writing clipped.tif fails, or calculate_default_transform
fails, or the reprojection loop fails, or writing clipped_4326.tif fails,
the run's result is exactly that error — no operation catches, retries,
recovers from, or adds validation around it. -/
theorem c5_errors_propagate (lib : RasterioLib) (rfs : FS) (vfs : VFS) :
    (∀ e, openR rfs "example.tif" = .error e →
      (runPipeline lib rfs vfs).2 = .error e) ∧
    (∀ sat e, openR rfs "example.tif" = .ok sat →
      openV vfs "aoi.geojson" = .error e →
      (runPipeline lib rfs vfs).2 = .error e) ∧
    (∀ sat f e, openR rfs "example.tif" = .ok sat →
      openV vfs "aoi.geojson" = .ok f →
      lib.mask sat f.features = .error e →
      (runPipeline lib rfs vfs).2 = .error e) ∧
    (∀ sat f clipped tr e, openR rfs "example.tif" = .ok sat →
      openV vfs "aoi.geojson" = .ok f →
      lib.mask sat f.features = .ok (clipped, tr) →
      lib.write "clipped.tif" (clippedMeta sat clipped tr) clipped = .error e →
      (runPipeline lib rfs vfs).2 = .error e) ∧
    (∀ sat f clipped tr e, openR rfs "example.tif" = .ok sat →
      openV vfs "aoi.geojson" = .ok f →
      lib.mask sat f.features = .ok (clipped, tr) →
      lib.write "clipped.tif" (clippedMeta sat clipped tr) clipped = .ok () →
      lib.calcTransform (clippedDs sat clipped tr).meta.crs target_crs
        (clippedDs sat clipped tr).meta.width (clippedDs sat clipped tr).meta.height
        (clippedDs sat clipped tr).bounds = .error e →
      (runPipeline lib rfs vfs).2 = .error e) ∧
    (∀ sat f clipped tr t2 w2 h2 e, openR rfs "example.tif" = .ok sat →
      openV vfs "aoi.geojson" = .ok f →
      lib.mask sat f.features = .ok (clipped, tr) →
      lib.write "clipped.tif" (clippedMeta sat clipped tr) clipped = .ok () →
      lib.calcTransform (clippedDs sat clipped tr).meta.crs target_crs
        (clippedDs sat clipped tr).meta.width (clippedDs sat clipped tr).meta.height
        (clippedDs sat clipped tr).bounds = .ok (t2, w2, h2) →
      (reprojectLoop lib (clippedDs sat clipped tr) t2 target_crs
        (clippedDs sat clipped tr).indexes).2 = .error e →
      (runPipeline lib rfs vfs).2 = .error e) ∧
    (∀ sat f clipped tr t2 w2 h2 newBands e, openR rfs "example.tif" = .ok sat →
      openV vfs "aoi.geojson" = .ok f →
      lib.mask sat f.features = .ok (clipped, tr) →
      lib.write "clipped.tif" (clippedMeta sat clipped tr) clipped = .ok () →
      lib.calcTransform (clippedDs sat clipped tr).meta.crs target_crs
        (clippedDs sat clipped tr).meta.width (clippedDs sat clipped tr).meta.height
        (clippedDs sat clipped tr).bounds = .ok (t2, w2, h2) →
      (reprojectLoop lib (clippedDs sat clipped tr) t2 target_crs
        (clippedDs sat clipped tr).indexes).2 = .ok newBands →
      lib.write "clipped_4326.tif" (reprojMeta (clippedDs sat clipped tr) t2 w2 h2)
        newBands = .error e →
      (runPipeline lib rfs vfs).2 = .error e) := by
  refine ⟨?_, ?_, ?_, ?_, ?_, ?_, ?_⟩
  · intro e ho
    simp [runPipeline, ho]
  · intro sat e ho hv
    simp [runPipeline, ho, hv]
  · intro sat f e ho hv hm
    simp [runPipeline, ho, hv, hm]
  · intro sat f clipped tr e ho hv hm hw1
    simp [runPipeline, afterMask, ho, hv, hm, hw1]
  · intro sat f clipped tr e ho hv hm hw1 hc
    simp [runPipeline, afterMask, afterClip, ho, hv, hm, hw1, openR_setFile, hc]
  · intro sat f clipped tr t2 w2 h2 e ho hv hm hw1 hc hl
    rcases hE : reprojectLoop lib (clippedDs sat clipped tr) t2 target_crs
      (clippedDs sat clipped tr).indexes with ⟨evs, res⟩
    rw [hE] at hl
    simp only at hl
    subst hl
    simp [runPipeline, afterMask, afterClip, ho, hv, hm, hw1, openR_setFile, hc, hE]
  · intro sat f clipped tr t2 w2 h2 newBands e ho hv hm hw1 hc hl hw2
    rcases hE : reprojectLoop lib (clippedDs sat clipped tr) t2 target_crs
      (clippedDs sat clipped tr).indexes with ⟨evs, res⟩
    rw [hE] at hl
    simp only at hl
    subst hl
    simp [runPipeline, afterMask, afterClip, ho, hv, hm, hw1, openR_setFile, hc, hE, hw2]

/-- Witness for C5: with a library whose mask raises an invalid-geometry
error the concrete run's result is exactly that error, and with a library
whose output-file write fails the run's result is exactly the write error. -/
theorem c5_errors_propagate_witness :
    (runPipeline badGeomLib exFS exVFS).2 = .error (.libError "invalid geometry") ∧
    (runPipeline badWriteLib exFS exVFS).2 = .error (.libError "write failed") :=
  ⟨(c5_errors_propagate badGeomLib exFS exVFS).2.2.1 exDataset exVec
      (.libError "invalid geometry") rfl rfl rfl,
    (c5_errors_propagate badWriteLib exFS exVFS).2.2.2.1 exDataset exVec exClipped exTr
      (.libError "write failed") rfl rfl rfl rfl⟩

/-- C6: the area-of-interest geometry is loaded once (exactly one
vector-file open event), is consumed exactly once as the shapes argument of
the single mask call (the mask events of the trace are exactly one event
carrying the loaded features, unmodified), and no other operation reads or
writes it: a run whose AOI file holds features the mask call cannot
distinguish produces the same result. -/
theorem c6_aoi_loaded_once_used_once (lib : RasterioLib) (rfs : FS) (vfs : VFS)
    (sat : Dataset) (f : VectorFile) (clipped : List Band) (tr t2 : Affine) (w2 h2 : Nat)
    (g : Nat → Band)
    (ho : openR rfs "example.tif" = .ok sat)
    (hv : openV vfs "aoi.geojson" = .ok f)
    (hm : lib.mask sat f.features = .ok (clipped, tr))
    (hw1 : lib.write "clipped.tif" (clippedMeta sat clipped tr) clipped = .ok ())
    (hc : lib.calcTransform (clippedDs sat clipped tr).meta.crs target_crs
        (clippedDs sat clipped tr).meta.width (clippedDs sat clipped tr).meta.height
        (clippedDs sat clipped tr).bounds = .ok (t2, w2, h2))
    (hr : ∀ i ∈ (clippedDs sat clipped tr).indexes,
        lib.reproject (((clippedDs sat clipped tr).read1 i).getD [])
          (clippedDs sat clipped tr).meta.transform (clippedDs sat clipped tr).meta.crs
          t2 target_crs = .ok (g i))
    (hw2 : lib.write "clipped_4326.tif" (reprojMeta (clippedDs sat clipped tr) t2 w2 h2)
        ((clippedDs sat clipped tr).indexes.map g) = .ok ()) :
    (runPipeline lib rfs vfs).1.filter isMaskEv = [.maskOp f.features] ∧
    (runPipeline lib rfs vfs).1.countP isOpenVectorEv = 1 ∧
    (∀ vfs' f', openV vfs' "aoi.geojson" = .ok f' →
      lib.mask sat f'.features = lib.mask sat f.features →
      (runPipeline lib rfs vfs').2 = (runPipeline lib rfs vfs).2) := by
  refine ⟨?_, ?_, ?_⟩
  · rw [run_spec lib rfs vfs sat f clipped tr t2 w2 h2 g ho hv hm hw1 hc hr hw2]
    simp [successTrace, isMaskEv, List.filter_append, filter_mask_reproj]
  · rw [run_spec lib rfs vfs sat f clipped tr t2 w2 h2 g ho hv hm hw1 hc hr hw2]
    simp [successTrace, isOpenVectorEv, List.countP_append, List.countP_cons,
      countP_openV_reproj]
  · intro vfs' f' hv' heq
    have hm' : lib.mask sat f'.features = .ok (clipped, tr) := heq.trans hm
    simp only [runPipeline, ho, hv, hv', hm, hm']

/-- Witness for C6 at the concrete example scene, with a second vector file
holding the same polygon. -/
theorem c6_aoi_loaded_once_used_once_witness :
    (runPipeline exLib exFS exVFS).1.filter isMaskEv = [.maskOp exVec.features] ∧
    (runPipeline exLib exFS exVFS).1.countP isOpenVectorEv = 1 ∧
    (∀ vfs' f', openV vfs' "aoi.geojson" = .ok f' →
      exLib.mask exDataset f'.features = exLib.mask exDataset exVec.features →
      (runPipeline exLib exFS vfs').2 = (runPipeline exLib exFS exVFS).2) :=
  c6_aoi_loaded_once_used_once exLib exFS exVFS exDataset exVec exClipped exTr exT2 3 2 exG
    rfl rfl rfl rfl rfl (fun _ _ => rfl) rfl

/-- C8: reading the dataset fully and reading it per band agree: the full
read has one 2-D array per band in band-index order, and for every valid
band index i, read(i) returns the (i-1)-th array of the full read — so for a
4-band input, unpacking the full read gives blue, green, red, nir equal to
read(1), read(2), read(3), read(4). -/
theorem c8_full_read_eq_per_band (d : Dataset) (hwf : d.wf) :
    d.read.length = d.meta.count ∧
    ∀ i ∈ d.indexes, d.read1 i = some (d.read.getD (i - 1) []) := by
  refine ⟨hwf, ?_⟩
  intro i hi
  have h1 : 1 ≤ i ∧ i < 1 + d.meta.count := List.mem_range'_1.mp hi
  rw [Dataset.read1, if_pos ⟨h1.1, by omega⟩]
  rfl

/-- Witness for C8 at the concrete 4-band demo scene: read(3) equals the
third array of the full read. -/
theorem c8_full_read_eq_per_band_witness :
    satDemo.read.length = satDemo.meta.count ∧
    satDemo.read1 3 = some (satDemo.read.getD 2 []) :=
  ⟨(c8_full_read_eq_per_band satDemo rfl).1,
    (c8_full_read_eq_per_band satDemo rfl).2 3 (by decide)⟩

/-- C9: the overall minimum printed for the full dataset equals the least of
the per-band minimums, and the overall maximum equals the greatest of the
per-band maximums, for every well-formed dataset with at least one band and
no empty band. -/
theorem c9_overall_minmax_eq_fold_of_band_minmax (d : Dataset) (hwf : d.wf)
    (hne : d.read ≠ []) (hb : ∀ b ∈ d.read, flat2 b ≠ []) :
    overallMin d = listMin (bandMins d) ∧ overallMax d = listMax (bandMaxs d) := by
  constructor
  · rw [overallMin, listMin_flat3 d.read hne hb, bandMins_eq_map d hwf]
  · rw [overallMax, listMax_flat3 d.read hne hb, bandMaxs_eq_map d hwf]

/-- Witness for C9 at the concrete 4-band demo scene. -/
theorem c9_overall_minmax_witness :
    overallMin satDemo = listMin (bandMins satDemo) ∧
    overallMax satDemo = listMax (bandMaxs satDemo) :=
  c9_overall_minmax_eq_fold_of_band_minmax satDemo rfl (by decide) (by decide)

/-- C10: evaluation of the pixel-lookup cell at a concrete PlanetScope-like
scene (5000 x 5000 pixels of 3 m, upper-left corner (500000, 4000000)).
The cell computes the world point bounds.left - 10000, bounds.top + 10000 —
10 km west and 10 km north of the upper-left corner, although its comment
says east and south — so satdat.index returns (-3334, -3334): the cell's row
and col are negative, not inside [0, 5000), and Python indexing at
red[row, col] wraps around from the end instead of reading the intended
pixel. -/
theorem c10_lookup_point_outside_raster :
    planetDs.index (lookup_x planetDs) (lookup_y planetDs) = (-3334, -3334) ∧
    lookup_row planetDs = -3334 ∧ lookup_col planetDs = -3334 ∧
    ¬(0 ≤ lookup_row planetDs ∧ 0 ≤ lookup_col planetDs) := by
  have hx : lookup_x planetDs = 490000 := by
    norm_num [lookup_x, Dataset.bounds, planetDs, Affine.applyT]
  have hy : lookup_y planetDs = 4010000 := by
    norm_num [lookup_y, Dataset.bounds, planetDs, Affine.applyT]
  have hidx : planetDs.index 490000 4010000 = (-3334, -3334) := by
    rw [Dataset.index]
    norm_num [planetDs, Prod.ext_iff, Int.floor_eq_iff]
  have h : planetDs.index (lookup_x planetDs) (lookup_y planetDs) = (-3334, -3334) := by
    rw [hx, hy, hidx]
  refine ⟨h, ?_, ?_, ?_⟩
  · rw [lookup_row, h]
  · rw [lookup_col, h]
  · rw [lookup_row, h]
    intro hcontra
    exact absurd hcontra.1 (by norm_num)
